import Mathlib

namespace MediConnect

/-!
Shallow embedding of the MediConnect scheduling and availability engine
(appointment_service.py, availability_service.py, absence_service.py and the
SQLAlchemy models in app/models/).  Datetimes are modelled as integer minutes
since an epoch whose day 0 is a Monday; dates are integer day numbers (so the
datetime of `date d` at time-of-day `t` minutes is `d * 1440 + t`), and
times-of-day are minutes after midnight.  Database tables are lists of
records, SQL filters are list filters, and `scalar_one_or_none` is `List.find?`.
-/

/-- Appointment lifecycle statuses (models AppointmentStatus). -/
inductive AppointmentStatus where
  | pending
  | confirmed
  | cancelled
  | completed
  | noShow
  | rescheduled
deriving DecidableEq, Repr

/-- Consultation types (models ConsultationType). -/
inductive ConsultationType where
  | presentiel
  | online
deriving DecidableEq, Repr

/-- The appointment row (models Appointment; `appointment_date` is the start
datetime in minutes). Fields not needed by any service path under study are
omitted. -/
structure Appointment where
  id : Nat
  patient_id : Nat
  doctor_id : Nat
  appointment_date : Int
  duration_minutes : Int
  consultation_type : ConsultationType
  status : AppointmentStatus
  confirmation_code : String
  confirmed_at : Option Int
deriving DecidableEq, Repr

/-- `AppointmentService.DEFAULT_SLOT_DURATION`. -/
def DEFAULT_SLOT_DURATION : Int := 30

/-- The status filter `Appointment.status.in_([PENDING, CONFIRMED])` used by
every conflict / availability query. -/
def statusActive (s : AppointmentStatus) : Bool :=
  s == .pending || s == .confirmed

/-- The three-disjunct overlap condition of `check_slot_availability`
(appointment_service.py lines 147-166), evaluated for one existing
appointment row against the candidate start `appointment_date`. -/
def slotConflictCond (appointment_date : Int) (a : Appointment) : Bool :=
  let slot_end := appointment_date + DEFAULT_SLOT_DURATION
  -- New slot starts during existing
  (decide (a.appointment_date ≤ appointment_date) &&
     decide (a.appointment_date + 30 > appointment_date))
  -- New slot ends during existing
  || (decide (a.appointment_date < slot_end) &&
     decide (a.appointment_date + 30 ≥ slot_end))
  -- New slot contains existing
  || (decide (a.appointment_date ≥ appointment_date) &&
     decide (a.appointment_date < slot_end))

/-- `AppointmentService.check_slot_availability`: true iff no pending/confirmed
appointment of the doctor (other than the excluded one, when given) satisfies
the three-disjunct overlap condition. -/
def check_slot_availability (appointments : List Appointment) (doctor_id : Nat)
    (appointment_date : Int) (exclude_appointment_id : Option Nat) : Bool :=
  let conflicts := appointments.filter (fun a =>
    a.doctor_id == doctor_id && statusActive a.status &&
    slotConflictCond appointment_date a &&
    (match exclude_appointment_id with
     | some e => a.id != e
     | none => true))
  conflicts.length == 0

/-- The reference half-open interval-overlap predicate of the spec, both
intervals taken as fixed 30-minute windows:
`existing.start < candidate.start + 30 AND existing.start + 30 > candidate.start`. -/
def refOverlap (candidate existing : Int) : Prop :=
  existing < candidate + 30 ∧ existing + 30 > candidate

/-! ### Appointment properties (models/appointment.py) -/

/-- `Appointment.is_cancellable` (models/appointment.py lines 85-92): false for
cancelled/completed/no_show, otherwise true iff `utcnow + 24h` is strictly
before the appointment start.  The evaluation instant `now` is explicit. -/
def is_cancellable (now : Int) (a : Appointment) : Bool :=
  if a.status = .cancelled ∨ a.status = .completed ∨ a.status = .noShow then
    false
  else
    decide (now + 24 * 60 < a.appointment_date)

/-- `Appointment.is_modifiable` (models/appointment.py lines 94-96). -/
def is_modifiable (now : Int) (a : Appointment) : Bool :=
  is_cancellable now a

/-- A pending appointment starting 48 hours after instant 0. -/
def apptPendingFar : Appointment :=
  { id := 1
    patient_id := 1
    doctor_id := 1
    appointment_date := 2880
    duration_minutes := 30
    consultation_type := .online
    status := .pending
    confirmation_code := "MC-AAAAAA"
    confirmed_at := none }

/-- A pending appointment starting exactly 24 hours after instant 0. -/
def apptPendingBoundary : Appointment :=
  { apptPendingFar with appointment_date := 1440 }

/-- A cancelled appointment starting 48 hours after instant 0. -/
def apptCancelledFar : Appointment :=
  { apptPendingFar with status := .cancelled }

/-! ### WeeklySlot derived quantities (models/availability.py) -/

/-- The weekly recurring availability row (models DoctorAvailability).  Times
of day are minutes after midnight (the source stores `datetime.time` values;
`t.hour * 60 + t.minute` is folded into the representation). -/
structure DoctorAvailability where
  id : Nat
  doctor_id : Nat
  day_of_week : Nat
  start_time : Nat
  end_time : Nat
  slot_duration_minutes : Int
  break_start : Option Nat
  break_end : Option Nat
  is_active : Bool
deriving DecidableEq, Repr

/-- `DoctorAvailability.total_minutes` (models/availability.py lines 72-85):
slot span minus break span (when both break bounds are set), clamped at 0. -/
def total_minutes (s : DoctorAvailability) : Int :=
  let start : Int := s.start_time
  let «end» : Int := s.end_time
  let total := «end» - start
  let total :=
    match s.break_start, s.break_end with
    | some bs, some be => total - ((be : Int) - (bs : Int))
    | _, _ => total
  max 0 total

/-- `DoctorAvailability.slot_count` (models/availability.py lines 87-91):
0 when the configured duration is non-positive, otherwise floor division. -/
def slot_count (s : DoctorAvailability) : Int :=
  if s.slot_duration_minutes ≤ 0 then 0
  else total_minutes s / s.slot_duration_minutes

/-- The spec's Monday scenario: 09:00-17:00, break 12:00-13:00, 30-minute
slots. -/
def slotMonday : DoctorAvailability :=
  { id := 1
    doctor_id := 1
    day_of_week := 0
    start_time := 540
    end_time := 1020
    slot_duration_minutes := 30
    break_start := some 720
    break_end := some 780
    is_active := true }

/-- A degenerate slot whose configured duration is 0. -/
def slotZeroDuration : DoctorAvailability :=
  { slotMonday with id := 2, slot_duration_minutes := 0,
                    break_start := none, break_end := none }

/-! ### Appointment lifecycle operations (appointment_service.py) -/

/-- The doctor row fields consumed by the services under study. -/
structure Doctor where
  id : Nat
  user_id : Nat
  is_accepting_patients : Bool
  offers_presentiel : Bool
  offers_online : Bool
deriving DecidableEq, Repr

/-- The patient row fields consumed by the services under study. -/
structure Patient where
  id : Nat
  user_id : Nat
  first_name : String
  last_name : String
  phone : Option String
deriving DecidableEq, Repr

/-- The persistent store visible to the appointment lifecycle operations. -/
structure DB where
  appointments : List Appointment
  doctors : List Doctor
  patients : List Patient
deriving DecidableEq, Repr

/-- The HTTPException statuses raised by the services. -/
inductive HError where
  | notFound
  | forbidden
  | badRequest
  | conflict
deriving DecidableEq, Repr

/-- `AppointmentService.get_appointment_by_id`. -/
def get_appointment_by_id (db : DB) (appointment_id : Nat) : Option Appointment :=
  db.appointments.find? (fun a => a.id == appointment_id)

/-- `select(Doctor).where(Doctor.user_id == user_id)` with
`scalar_one_or_none`. -/
def findDoctorByUserId (db : DB) (user_id : Nat) : Option Doctor :=
  db.doctors.find? (fun d => d.user_id == user_id)

/-- `select(Patient).where(Patient.user_id == user_id)` with
`scalar_one_or_none`. -/
def findPatientByUserId (db : DB) (user_id : Nat) : Option Patient :=
  db.patients.find? (fun p => p.user_id == user_id)

/-- `AppointmentService.confirm_appointment`: doctor ownership check, then the
`status == PENDING` guard, then the transition to confirmed. -/
def confirm_appointment (db : DB) (now : Int) (appointment_id doctor_user_id : Nat) :
    Except HError Appointment :=
  match get_appointment_by_id db appointment_id with
  | none => .error .notFound
  | some appointment =>
    match findDoctorByUserId db doctor_user_id with
    | none => .error .forbidden
    | some doctor =>
      if appointment.doctor_id ≠ doctor.id then .error .forbidden
      else if appointment.status ≠ .pending then .error .badRequest
      else .ok { appointment with status := .confirmed, confirmed_at := some now }

/-- The ownership check at the head of `cancel_appointment`: the acting user
must be the appointment's doctor (when `is_doctor`) or its patient. -/
def cancelAuth (db : DB) (appointment : Appointment) (user_id : Nat)
    (is_doctor : Bool) : Except HError Unit :=
  if is_doctor then
    match findDoctorByUserId db user_id with
    | none => .error .forbidden
    | some doctor =>
      if appointment.doctor_id ≠ doctor.id then .error .forbidden else .ok ()
  else
    match findPatientByUserId db user_id with
    | none => .error .forbidden
    | some patient =>
      if appointment.patient_id ≠ patient.id then .error .forbidden else .ok ()

/-- `AppointmentService.cancel_appointment`: ownership check for the acting
side, the `status in [CANCELLED, COMPLETED]` guard, and the 24-hour rule for
patients only. -/
def cancel_appointment (db : DB) (now : Int) (appointment_id user_id : Nat)
    (is_doctor : Bool) : Except HError Appointment :=
  match get_appointment_by_id db appointment_id with
  | none => .error .notFound
  | some appointment =>
    match cancelAuth db appointment user_id is_doctor with
    | .error e => .error e
    | .ok _ =>
      if appointment.status = .cancelled ∨ appointment.status = .completed then
        .error .badRequest
      else if ¬ is_doctor ∧ is_cancellable now appointment = false then
        .error .badRequest
      else
        .ok { appointment with status := .cancelled }

/-- `AppointmentService.reschedule_appointment`: patient ownership, the
`is_modifiable` (24-hour) guard, the overlap check excluding the
appointment's own slot, then the in-place move back to pending. -/
def reschedule_appointment (db : DB) (now : Int) (appointment_id patient_id : Nat)
    (new_date : Int) : Except HError Appointment :=
  match get_appointment_by_id db appointment_id with
  | none => .error .notFound
  | some appointment =>
    if appointment.patient_id ≠ patient_id then .error .forbidden
    else if is_modifiable now appointment = false then .error .badRequest
    else if check_slot_availability db.appointments appointment.doctor_id
        new_date (some appointment_id) = false then .error .conflict
    else
      .ok { appointment with appointment_date := new_date,
                             status := .pending, confirmed_at := none }

/-- `AppointmentService.mark_completed`: doctor ownership, then the
`status == CONFIRMED` guard, then the transition to completed. -/
def mark_completed (db : DB) (appointment_id doctor_user_id : Nat) :
    Except HError Appointment :=
  match get_appointment_by_id db appointment_id with
  | none => .error .notFound
  | some appointment =>
    match findDoctorByUserId db doctor_user_id with
    | none => .error .forbidden
    | some doctor =>
      if appointment.doctor_id ≠ doctor.id then .error .forbidden
      else if appointment.status ≠ .confirmed then .error .badRequest
      else .ok { appointment with status := .completed }

/-- `AppointmentService.mark_no_show`: doctor ownership, then the
`status == CONFIRMED` guard, then the transition to no_show. -/
def mark_no_show (db : DB) (appointment_id doctor_user_id : Nat) :
    Except HError Appointment :=
  match get_appointment_by_id db appointment_id with
  | none => .error .notFound
  | some appointment =>
    match findDoctorByUserId db doctor_user_id with
    | none => .error .forbidden
    | some doctor =>
      if appointment.doctor_id ≠ doctor.id then .error .forbidden
      else if appointment.status ≠ .confirmed then .error .badRequest
      else .ok { appointment with status := .noShow }

/-- A no_show appointment of doctor 1 (user 10) and patient 2 (user 20). -/
def apptNoShow : Appointment :=
  { id := 5
    patient_id := 2
    doctor_id := 1
    appointment_date := 2880
    duration_minutes := 30
    consultation_type := .online
    status := .noShow
    confirmation_code := "MC-QQQQQQ"
    confirmed_at := none }

/-- The store holding `apptNoShow`, its doctor and its patient. -/
def dbNoShow : DB :=
  { appointments := [apptNoShow]
    doctors := [{ id := 1, user_id := 10, is_accepting_patients := true,
                  offers_presentiel := true, offers_online := true }]
    patients := [{ id := 2, user_id := 20, first_name := "A",
                   last_name := "B", phone := none }] }

/-- Witness for C4 instantiated at `dbNoShow` with a cancelled appointment in
place of the no_show one. -/
def dbCancelled : DB :=
  { dbNoShow with appointments := [{ apptNoShow with status := .cancelled }] }

/-! ### Confirmation codes and booking creation (appointment_service.py) -/

/-- `string.ascii_uppercase + string.digits`, the draw alphabet of
`generate_confirmation_code`. -/
def codeAlphabet : List Char :=
  "ABCDEFGHIJKLMNOPQRSTUVWXYZ0123456789".toList

/-- `AppointmentService.generate_confirmation_code`: six draws from the random
stream `g` (each draw an index into the 36-character alphabet, exactly what
`secrets.choice(chars)` yields), joined and prefixed with "MC-". -/
def generate_confirmation_code (g : Nat → Fin 36) : String :=
  "MC-" ++ String.mk ((List.range 6).map
    (fun k => codeAlphabet.getD (g k) 'A'))

/-- `AppointmentService.create_appointment`, with the random stream explicit:
doctor lookup, accepting/consultation-type validations, the slot availability
check, then a single call to `generate_confirmation_code` followed by the
insert.  The unique constraint on `confirmation_code`
(models/appointment.py, `unique=True`) makes `db.commit()` fail when the
freshly generated code equals an existing appointment's code, and the service
catches nothing, so a collision fails the booking. -/
def create_appointment (db : DB) (g : Nat → Fin 36) (patient_id doctor_id : Nat)
    (appointment_date : Int) (consultation_type : ConsultationType)
    (new_id : Nat) : Except HError Appointment :=
  match db.doctors.find? (fun d => d.id == doctor_id) with
  | none => .error .notFound
  | some doctor =>
    if doctor.is_accepting_patients = false then .error .badRequest
    else if consultation_type = .presentiel ∧ doctor.offers_presentiel = false
      then .error .badRequest
    else if consultation_type = .online ∧ doctor.offers_online = false
      then .error .badRequest
    else if check_slot_availability db.appointments doctor_id appointment_date
        none = false then .error .conflict
    else
      let confirmation_code := generate_confirmation_code g
      if db.appointments.any
          (fun a => a.confirmation_code == confirmation_code) then
        .error .conflict
      else
        .ok { id := new_id
              patient_id := patient_id
              doctor_id := doctor_id
              appointment_date := appointment_date
              duration_minutes := DEFAULT_SLOT_DURATION
              consultation_type := consultation_type
              status := .pending
              confirmation_code := confirmation_code
              confirmed_at := none }

/-- A stream whose first six draws spell "AAAAAA" and whose next six would
spell "BBBBBB": a retry with fresh draws would have produced a fresh code. -/
def drawsThenFresh : Nat → Fin 36 :=
  fun k => if k < 6 then 0 else 1

/-- A completed appointment already holding the code "MC-AAAAAA". -/
def apptHoldingCode : Appointment :=
  { id := 7
    patient_id := 2
    doctor_id := 1
    appointment_date := 0
    duration_minutes := 30
    consultation_type := .online
    status := .completed
    confirmation_code := "MC-AAAAAA"
    confirmed_at := none }

/-- A store where doctor 1 accepts bookings and the code "MC-AAAAAA" is
already taken (by a completed appointment, so the candidate slot is free). -/
def dbTakenCode : DB :=
  { appointments := [apptHoldingCode]
    doctors := [{ id := 1, user_id := 10, is_accepting_patients := true,
                  offers_presentiel := true, offers_online := true }]
    patients := [{ id := 2, user_id := 20, first_name := "A",
                   last_name := "B", phone := none }] }

/-! ### Absence conflict detection (absence_service.py) -/

/-- One entry of the conflict report (schemas/absence.py
AffectedAppointment). -/
structure AffectedAppointment where
  id : Nat
  appointment_date : Int
  patient_name : String
  patient_phone : Option String
  consultation_type : ConsultationType
  status : AppointmentStatus
deriving DecidableEq, Repr

/-- The conflict report (schemas/absence.py ConflictCheckResponse). -/
structure ConflictCheckResponse where
  has_conflicts : Bool
  affected_count : Nat
  affected_appointments : List AffectedAppointment
  recommendation : String
deriving DecidableEq, Repr

/-- `select(Patient).where(Patient.id == patient_id)` with
`scalar_one_or_none`. -/
def findPatientById (db : DB) (patient_id : Nat) : Option Patient :=
  db.patients.find? (fun p => p.id == patient_id)

/-- The body of the per-appointment loop in `check_conflicts` that builds one
`AffectedAppointment` (patient display name falls back to "Unknown"). -/
def affectedOf (db : DB) (a : Appointment) : AffectedAppointment :=
  let patient := findPatientById db a.patient_id
  { id := a.id
    appointment_date := a.appointment_date
    patient_name :=
      match patient with
      | some p => p.first_name ++ " " ++ p.last_name
      | none => "Unknown"
    patient_phone :=
      match patient with
      | some p => p.phone
      | none => none
    consultation_type := a.consultation_type
    status := a.status }

/-- `AbsenceService.check_conflicts`: pending/confirmed appointments of the
doctor whose start datetime falls in `[start_date 00:00, end_date 23:59]`,
optionally filtered by time-of-day overlap against a partial-day window,
mapped to report entries; the recommendation string depends only on the
counts.  The `exclude_absence_id` argument is accepted but never read by the
body, exactly as in the source. -/
def check_conflicts (db : DB) (doctor_id : Nat) (start_date end_date : Int)
    (start_time end_time : Option Nat) (exclude_absence_id : Option Nat) :
    ConflictCheckResponse :=
  let appointments := db.appointments.filter (fun a =>
    a.doctor_id == doctor_id && statusActive a.status &&
    decide (a.appointment_date ≥ start_date * 1440) &&
    decide (a.appointment_date ≤ end_date * 1440 + 1439))
  let affected := (appointments.filter (fun a =>
    match start_time, end_time with
    | some st, some et =>
      let appt_time := a.appointment_date % 1440
      let appt_end_time := (a.appointment_date + a.duration_minutes) % 1440
      !(decide (appt_end_time ≤ (st : Int)) || decide (appt_time ≥ (et : Int)))
    | _, _ => true)).map (affectedOf db)
  let recommendation :=
    if affected.length = 0 then
      "No conflicts. You can proceed with creating this absence."
    else if affected.length = 1 then
      "1 appointment needs attention. Consider rescheduling before confirming."
    else
      let confirmed :=
        (affected.filter (fun x => x.status == .confirmed)).length
      toString affected.length ++ " appointments affected (" ++
        toString confirmed ++ " confirmed). Please reschedule or notify patients."
  { has_conflicts := decide (affected.length > 0)
    affected_count := affected.length
    affected_appointments := affected
    recommendation := recommendation }

/-! ### Weekly slot store (availability_service.py) -/

/-- Create request (schemas/availability.py AvailabilitySlotCreate), the HH:MM
strings already parsed to minutes by `parse_time`. -/
structure AvailabilitySlotCreate where
  day_of_week : Nat
  start_time : Nat
  end_time : Nat
  slot_duration_minutes : Int
  break_start : Option Nat
  break_end : Option Nat
deriving DecidableEq, Repr

/-- Update request (schemas/availability.py AvailabilitySlotUpdate); a `none`
field is absent from the request and leaves the stored value unchanged. -/
structure AvailabilitySlotUpdate where
  start_time : Option Nat
  end_time : Option Nat
  slot_duration_minutes : Option Int
  break_start : Option Nat
  break_end : Option Nat
  is_active : Option Bool
deriving DecidableEq, Repr

/-- `AvailabilityService.create_availability_slot`: scan the doctor's active
slots on the same day and raise 409 on the first half-open overlap
(`not (new_end <= slot.start_time or new_start >= slot.end_time)`), else
append the new active slot.  Returns the new table and the created row. -/
def create_availability_slot (slots : List DoctorAvailability)
    (doctor_id new_id : Nat) (data : AvailabilitySlotCreate) :
    Except HError (List DoctorAvailability × DoctorAvailability) :=
  let existing_slots := slots.filter (fun s =>
    s.doctor_id == doctor_id && s.day_of_week == data.day_of_week && s.is_active)
  let new_start := data.start_time
  let new_end := data.end_time
  if existing_slots.any (fun slot =>
      !(decide (new_end ≤ slot.start_time) ||
        decide (new_start ≥ slot.end_time))) then
    .error .conflict
  else
    let new_slot : DoctorAvailability :=
      { id := new_id
        doctor_id := doctor_id
        day_of_week := data.day_of_week
        start_time := new_start
        end_time := new_end
        slot_duration_minutes := data.slot_duration_minutes
        break_start := data.break_start
        break_end := data.break_end
        is_active := true }
    .ok (slots ++ [new_slot], new_slot)

/-- The field-by-field conditional assignment block of
`update_availability_slot`. -/
def applySlotUpdate (slot : DoctorAvailability) (data : AvailabilitySlotUpdate) :
    DoctorAvailability :=
  { slot with
    start_time := data.start_time.getD slot.start_time
    end_time := data.end_time.getD slot.end_time
    slot_duration_minutes :=
      data.slot_duration_minutes.getD slot.slot_duration_minutes
    break_start :=
      match data.break_start with
      | some b => some b
      | none => slot.break_start
    break_end :=
      match data.break_end with
      | some b => some b
      | none => slot.break_end
    is_active := data.is_active.getD slot.is_active }

/-- `AvailabilityService.update_availability_slot`: find the row by id and
doctor, apply the requested field updates and commit.  The source performs no
overlap check here. -/
def update_availability_slot (slots : List DoctorAvailability)
    (doctor_id slot_id : Nat) (data : AvailabilitySlotUpdate) :
    Except HError (List DoctorAvailability × DoctorAvailability) :=
  match slots.find? (fun s => s.id == slot_id && s.doctor_id == doctor_id) with
  | none => .error .notFound
  | some slot =>
    let slot' := applySlotUpdate slot data
    .ok (slots.map (fun s =>
      if s.id == slot_id && s.doctor_id == doctor_id then slot' else s), slot')

/-- Half-open overlap of two stored slots' [start, end) windows. -/
def slotsOverlap (a b : DoctorAvailability) : Bool :=
  !(decide (a.end_time ≤ b.start_time) || decide (a.start_time ≥ b.end_time))

/-- The spec §8 invariant: within one doctor+day, no two distinct active
weekly slots overlap. -/
def weeklyNonOverlapping (slots : List DoctorAvailability) : Prop :=
  ∀ a ∈ slots, ∀ b ∈ slots, a.id ≠ b.id →
    a.doctor_id = b.doctor_id → a.day_of_week = b.day_of_week →
    a.is_active = true → b.is_active = true → slotsOverlap a b = false

/-- An active Monday 09:00-10:00 slot of doctor 1. -/
def wslotA : DoctorAvailability :=
  { id := 1
    doctor_id := 1
    day_of_week := 0
    start_time := 540
    end_time := 600
    slot_duration_minutes := 30
    break_start := none
    break_end := none
    is_active := true }

/-- An active Monday 11:00-12:00 slot of doctor 1. -/
def wslotB : DoctorAvailability :=
  { wslotA with id := 2, start_time := 660, end_time := 720 }

/-- The update request moving a slot to 09:30-10:30. -/
def overlapUpdate : AvailabilitySlotUpdate :=
  { start_time := some 570
    end_time := some 630
    slot_duration_minutes := none
    break_start := none
    break_end := none
    is_active := none }

/-- `wslotB` after `overlapUpdate`. -/
def wslotBMoved : DoctorAvailability :=
  { wslotB with start_time := 570, end_time := 630 }

/-- A create request for Monday 09:30-10:30. -/
def overlapCreate : AvailabilitySlotCreate :=
  { day_of_week := 0
    start_time := 570
    end_time := 630
    slot_duration_minutes := 30
    break_start := none
    break_end := none }

/-! ### Availability compositor (availability_service.py get_computed_availability) -/

/-- A date override row (models AvailabilityException). -/
structure AvailabilityException where
  id : Nat
  doctor_id : Nat
  exception_date : Int
  start_time : Option Nat
  end_time : Option Nat
  is_available : Bool
  reason : Option String
deriving DecidableEq, Repr

/-- `AvailabilityException.is_full_day`. -/
def AvailabilityException.is_full_day (e : AvailabilityException) : Bool :=
  e.start_time == none && e.end_time == none

/-- Absence categories (models AbsenceType). -/
inductive AbsenceType where
  | vacation
  | sick
  | training
  | conference
  | personal
  | other
deriving DecidableEq, Repr

/-- `AbsenceType.value`, the stored string of each category. -/
def AbsenceType.value : AbsenceType → String
  | .vacation => "vacation"
  | .sick => "sick"
  | .training => "training"
  | .conference => "conference"
  | .personal => "personal"
  | .other => "other"

/-- An absence row (models DoctorAbsence); recurrence and notification fields
are not consumed by the compositor and are omitted. -/
structure DoctorAbsence where
  id : Nat
  doctor_id : Nat
  start_date : Int
  end_date : Int
  start_time : Option Nat
  end_time : Option Nat
  absence_type : AbsenceType
  title : Option String
  is_active : Bool
deriving DecidableEq, Repr

/-- `DoctorAbsence.is_full_day`. -/
def DoctorAbsence.is_full_day (a : DoctorAbsence) : Bool :=
  a.start_time == none && a.end_time == none

/-- Python `x or y` on an optional string (None and the empty string are
falsy). -/
def pyOr (x : Option String) (y : String) : String :=
  match x with
  | some s => if s = "" then y else s
  | none => y

def DAY_NAMES : List String :=
  ["Monday", "Tuesday", "Wednesday", "Thursday", "Friday", "Saturday", "Sunday"]

/-- `date.weekday()` in the day-number model (day 0 is a Monday). -/
def weekday (d : Int) : Nat := (d % 7).toNat

/-- Insertion step of the `order_by(..., start_time)` ordering. -/
def insertByStart (s : DoctorAvailability) :
    List DoctorAvailability → List DoctorAvailability
  | [] => [s]
  | t :: ts =>
    if s.start_time ≤ t.start_time then s :: t :: ts
    else t :: insertByStart s ts

/-- Stable sort by `start_time`, modelling the SQL ordering of the weekly
schedule fetch within one day of week. -/
def sortByStart : List DoctorAvailability → List DoctorAvailability
  | [] => []
  | s :: ss => insertByStart s (sortByStart ss)

/-- `get_weekly_schedule` restricted to what the compositor consumes: for each
day of week, the doctor's active slots in `order_by(day_of_week, start_time)`
order; `is_working_day` is derived as non-emptiness. -/
def get_weekly_schedule (slots : List DoctorAvailability) (doctor_id : Nat)
    (day : Nat) : List DoctorAvailability :=
  sortByStart (slots.filter (fun s =>
    s.doctor_id == doctor_id && s.is_active && s.day_of_week == day))

/-- One generated sub-slot of the computed availability (schemas
ComputedTimeSlot; the HH:MM strings are times-of-day in minutes). -/
structure ComputedTimeSlot where
  start_time : Nat
  end_time : Nat
  is_available : Bool
  is_booked : Bool
  appointment_id : Option Nat
deriving DecidableEq, Repr

/-- One day of the computed availability (schemas ComputedDayAvailability). -/
structure ComputedDayAvailability where
  date : Int
  day_of_week : Nat
  day_name : String
  is_working_day : Bool
  is_blocked : Bool
  block_reason : Option String
  slots : List ComputedTimeSlot
  available_slot_count : Nat
  booked_slot_count : Nat
deriving DecidableEq, Repr

/-- `exceptions_by_date.get(current_date)`: the dict comprehension
`{exc.exception_date: exc for exc in exceptions}` keeps, for each date, the
LAST exception in fetch order (the fetch sorts by `exception_date` only,
which is stable on ties), so the lookup yields the last listed exception of
that date. -/
def lastExceptionFor (exceptions : List AvailabilityException) (d : Int) :
    Option AvailabilityException :=
  (exceptions.filter (fun e => e.exception_date == d)).getLast?

/-- The absence scan of the day loop: the first active-fetched full-day
absence whose range covers the date (the loop breaks at the first full-day
hit; covering partial-day absences are skipped without blocking). -/
def absenceBlock (absences : List DoctorAbsence) (current_date : Int) :
    Option DoctorAbsence :=
  absences.find? (fun ab =>
    decide (ab.start_date ≤ current_date) &&
    decide (current_date ≤ ab.end_date) && ab.is_full_day)

/-- The blocked flag and reason of one day (availability_service.py lines
437-451): the absence verdict first, then the exception check, whose blocking
verdict overwrites both the flag and the reason. -/
def dayBlocking (absences : List DoctorAbsence)
    (exceptions : List AvailabilityException) (current_date : Int) :
    Bool × Option String :=
  let blocked0 : Bool × Option String :=
    match absenceBlock absences current_date with
    | some ab => (true, some (pyOr ab.title ab.absence_type.value))
    | none => (false, none)
  match lastExceptionFor exceptions current_date with
  | some e =>
    if !e.is_available && e.is_full_day then
      (true, some (pyOr e.reason "Blocked"))
    else blocked0
  | none => blocked0

/-- The inner `while current_time + duration <= end_time` loop expanding one
weekly slot into sub-slots (availability_service.py lines 465-505): break
overlap skips the sub-slot, the first overlapping fetched appointment books
it, and `is_available` is the negation of `is_booked`.  `fuel` bounds the
iteration count; callers pass enough for the loop as written (which
terminates exactly when the configured duration is positive). -/
def genSubSlots (fuel : Nat) (current_time end_time duration : Int)
    (break_start break_end : Option Nat)
    (appointments : List Appointment) : List ComputedTimeSlot :=
  match fuel with
  | 0 => []
  | fuel + 1 =>
    if current_time + duration ≤ end_time then
      let slot_end_time := current_time + duration
      let in_break :=
        match break_start, break_end with
        | some bs, some be =>
          !(decide (current_time % 1440 ≥ (be : Int)) ||
            decide (slot_end_time % 1440 ≤ (bs : Int)))
        | _, _ => false
      let rest := genSubSlots fuel slot_end_time end_time duration
        break_start break_end appointments
      if in_break then rest
      else
        let booked := appointments.find? (fun appt =>
          !(decide (slot_end_time ≤ appt.appointment_date) ||
            decide (current_time ≥ appt.appointment_date + appt.duration_minutes)))
        { start_time := (current_time % 1440).toNat
          end_time := (slot_end_time % 1440).toNat
          is_available := booked.isNone
          is_booked := booked.isSome
          appointment_id := booked.map (fun a => a.id) } :: rest
    else []

/-- One iteration of the day loop of `get_computed_availability`. -/
def computeDay (weekly : Nat → List DoctorAvailability)
    (absences : List DoctorAbsence) (exceptions : List AvailabilityException)
    (appointments : List Appointment) (current_date : Int) :
    ComputedDayAvailability :=
  let day_of_week := weekday current_date
  let day_slots := weekly day_of_week
  let is_working_day := decide (day_slots.length > 0)
  let blocked := dayBlocking absences exceptions current_date
  let is_blocked := blocked.1
  let slots :=
    if !is_blocked && is_working_day then
      day_slots.flatMap (fun slot_info =>
        let cur := current_date * 1440 + (slot_info.start_time : Int)
        let endT := current_date * 1440 + (slot_info.end_time : Int)
        genSubSlots ((endT - cur).toNat + 1) cur endT
          slot_info.slot_duration_minutes
          slot_info.break_start slot_info.break_end appointments)
    else []
  { date := current_date
    day_of_week := day_of_week
    day_name := DAY_NAMES.getD day_of_week ""
    is_working_day := is_working_day && !is_blocked
    is_blocked := is_blocked
    block_reason := blocked.2
    slots := slots
    available_slot_count := (slots.filter (fun s => s.is_available)).length
    booked_slot_count := (slots.filter (fun s => s.is_booked)).length }

/-- The `while current_date <= end_date` day loop.  `fuel` is the remaining
iteration count; `get_computed_availability` passes the loop's exact trip
count `(end_date + 1 - start_date).toNat`. -/
def computeDays (fuel : Nat) (current_date end_date : Int)
    (weekly : Nat → List DoctorAvailability) (absences : List DoctorAbsence)
    (exceptions : List AvailabilityException)
    (appointments : List Appointment) : List ComputedDayAvailability :=
  match fuel with
  | 0 => []
  | fuel + 1 =>
    if current_date ≤ end_date then
      computeDay weekly absences exceptions appointments current_date ::
        computeDays fuel (current_date + 1) end_date weekly absences
          exceptions appointments
    else []

/-- The absence fetch of `get_computed_availability`: active absences of the
doctor overlapping the range. -/
def fetchAbsences (absences : List DoctorAbsence) (doctor_id : Nat)
    (start_date end_date : Int) : List DoctorAbsence :=
  absences.filter (fun a =>
    a.doctor_id == doctor_id && a.is_active &&
    decide (a.start_date ≤ end_date) && decide (a.end_date ≥ start_date))

/-- The exception fetch (`get_exceptions` with both range bounds). -/
def fetchExceptions (exceptions : List AvailabilityException) (doctor_id : Nat)
    (start_date end_date : Int) : List AvailabilityException :=
  exceptions.filter (fun e =>
    e.doctor_id == doctor_id &&
    decide (start_date ≤ e.exception_date) &&
    decide (e.exception_date ≤ end_date))

/-- The appointment fetch: pending/confirmed appointments of the doctor in
`[start_date 00:00, end_date 23:59]`. -/
def fetchAppointments (appointments : List Appointment) (doctor_id : Nat)
    (start_date end_date : Int) : List Appointment :=
  appointments.filter (fun a =>
    a.doctor_id == doctor_id && statusActive a.status &&
    decide (a.appointment_date ≥ start_date * 1440) &&
    decide (a.appointment_date ≤ end_date * 1440 + 1439))

/-- The persistent rows visible to the compositor. -/
structure AvailState where
  weekly_slots : List DoctorAvailability
  exceptions : List AvailabilityException
  absences : List DoctorAbsence
  appointments : List Appointment
deriving DecidableEq, Repr

/-- `AvailabilityService.get_computed_availability`: fetch the weekly
schedule, the exceptions, the absences and the appointments for the range,
then run the day loop.  The response wrapper fields (doctor_id, start_date,
end_date echoes) are dropped; the day list is the content. -/
def get_computed_availability (st : AvailState) (doctor_id : Nat)
    (start_date end_date : Int) : List ComputedDayAvailability :=
  computeDays ((end_date + 1 - start_date).toNat) start_date end_date
    (get_weekly_schedule st.weekly_slots doctor_id)
    (fetchAbsences st.absences doctor_id start_date end_date)
    (fetchExceptions st.exceptions doctor_id start_date end_date)
    (fetchAppointments st.appointments doctor_id start_date end_date)

/-- A store with one Monday morning slot (wslotA) and nothing else. -/
def availStPast : AvailState :=
  { weekly_slots := [wslotA]
    exceptions := []
    absences := []
    appointments := [] }

/-- A concrete evaluation instant far after day 0 (in minutes). -/
def evalNow : Int := 1000000

/-- A full-day vacation absence of doctor 1 on day 5, titled "Vacances". -/
def absVac : DoctorAbsence :=
  { id := 1
    doctor_id := 1
    start_date := 5
    end_date := 5
    start_time := none
    end_time := none
    absence_type := .vacation
    title := some "Vacances"
    is_active := true }

/-- A full-day blocking exception of doctor 1 on day 5, reason "Travaux". -/
def excRenov : AvailabilityException :=
  { id := 3
    doctor_id := 1
    exception_date := 5
    start_time := none
    end_time := none
    is_available := false
    reason := some "Travaux" }

/-- A store where both `absVac` and `excRenov` cover day 5. -/
def availStBoth : AvailState :=
  { weekly_slots := []
    exceptions := [excRenov]
    absences := [absVac]
    appointments := [] }

/-- An earlier full-day blocking exception of doctor 1 on day 7. -/
def excBlockFull : AvailabilityException :=
  { id := 1
    doctor_id := 1
    exception_date := 7
    start_time := none
    end_time := none
    is_available := false
    reason := some "Closed" }

/-- A later partial-day availability exception of doctor 1 on day 7. -/
def excAddLater : AvailabilityException :=
  { id := 2
    doctor_id := 1
    exception_date := 7
    start_time := some 540
    end_time := some 600
    is_available := true
    reason := none }

/-- A store where day 7 carries both exceptions, the blocking one first. -/
def availStTwoExc : AvailState :=
  { weekly_slots := []
    exceptions := [excBlockFull, excAddLater]
    absences := []
    appointments := [] }

/-! ### Theorems -/

/-- The three-disjunct condition coincides with the reference 30-minute
interval-overlap predicate. -/
theorem slotConflictCond_iff_refOverlap (c : Int) (a : Appointment) :
    slotConflictCond c a = true ↔ refOverlap c a.appointment_date := by
  simp only [slotConflictCond, refOverlap, DEFAULT_SLOT_DURATION, Bool.or_eq_true,
    Bool.and_eq_true, decide_eq_true_eq]
  omega

theorem statusActive_iff (s : AppointmentStatus) :
    statusActive s = true ↔ s = .pending ∨ s = .confirmed := by
  cases s <;> simp [statusActive]

/-- Claim C1: `check_slot_availability` returns false if and only if some
existing appointment for the same doctor in status pending or confirmed
overlaps the candidate under the reference half-open 30-minute-window overlap
test (`existing.start < candidate.start + 30 ∧ existing.start + 30 >
candidate.start`), respecting the `exclude_appointment_id` filter when it is
given. -/
theorem C1_check_slot_availability_iff_refOverlap
    (appointments : List Appointment) (doctor_id : Nat)
    (appointment_date : Int) (exclude_appointment_id : Option Nat) :
    check_slot_availability appointments doctor_id appointment_date
      exclude_appointment_id = false ↔
    ∃ a ∈ appointments, a.doctor_id = doctor_id ∧
      (a.status = .pending ∨ a.status = .confirmed) ∧
      (∀ e, exclude_appointment_id = some e → a.id ≠ e) ∧
      refOverlap appointment_date a.appointment_date := by
  unfold check_slot_availability
  rw [show ∀ b : Bool, (b = false) ↔ ¬ (b = true) by intro b; cases b <;> simp]
  simp only [beq_iff_eq, List.length_eq_zero, List.filter_eq_nil_iff, not_forall]
  constructor
  · rintro ⟨a, ha, hpred⟩
    refine ⟨a, ha, ?_⟩
    simp only [not_not, Bool.and_eq_true, beq_iff_eq] at hpred
    obtain ⟨⟨⟨hdoc, hstat⟩, hover⟩, hexc⟩ := hpred
    refine ⟨hdoc, (statusActive_iff _).mp hstat, ?_,
      (slotConflictCond_iff_refOverlap _ _).mp hover⟩
    intro e he
    subst he
    simpa [bne_iff_ne] using hexc
  · rintro ⟨a, ha, hdoc, hstat, hexc, hover⟩
    refine ⟨a, ha, ?_⟩
    simp only [not_not, Bool.and_eq_true, beq_iff_eq]
    refine ⟨⟨⟨hdoc, (statusActive_iff _).mpr hstat⟩,
      (slotConflictCond_iff_refOverlap _ _).mpr hover⟩, ?_⟩
    cases exclude_appointment_id with
    | none => rfl
    | some e => simpa [bne_iff_ne] using hexc e rfl

/-- Claim C7 (amended): `is_cancellable` is true iff the status is not one of
cancelled/completed/no_show AND `now + 24h < appointment_start`; it is false
for an appointment starting exactly at `now + 24h`; and `is_modifiable`
coincides with `is_cancellable`. -/
theorem C7_is_cancellable_characterization (now : Int) (a : Appointment) :
    (is_cancellable now a = true ↔
       (a.status ≠ .cancelled ∧ a.status ≠ .completed ∧ a.status ≠ .noShow ∧
        now + 24 * 60 < a.appointment_date)) ∧
    (a.appointment_date = now + 24 * 60 → is_cancellable now a = false) ∧
    is_modifiable now a = is_cancellable now a := by
  refine ⟨?_, ?_, rfl⟩
  · unfold is_cancellable
    by_cases h : a.status = .cancelled ∨ a.status = .completed ∨ a.status = .noShow
    · simp [h]
      tauto
    · push_neg at h
      simp [h, h.1, h.2.1, h.2.2]
  · intro hb
    unfold is_cancellable
    split
    · rfl
    · simp [hb]

/-- Witness for C7 at a concrete appointment: pending, starting 2 days after
`now = 0`, is cancellable; at exactly `now + 24h` it is not. -/
theorem C7_is_cancellable_characterization_witness :
    is_cancellable 0 apptPendingFar = true ∧
    is_cancellable 0 apptPendingBoundary = false := by
  constructor
  · exact (C7_is_cancellable_characterization 0 apptPendingFar).1.mpr
      ⟨by decide, by decide, by decide, by decide⟩
  · exact (C7_is_cancellable_characterization 0 apptPendingBoundary).2.1
      (by decide)

/-- Counterexample to claim C7 as stated: for a cancelled appointment starting
48 hours after `now`, the time-only condition `now + 24h < start` holds and
yet `is_cancellable` is false (the property also tests the status). -/
theorem C7_counterexample :
    ¬ (is_cancellable 0 apptCancelledFar = true ↔
        (0 : Int) + 24 * 60 < apptCancelledFar.appointment_date) := by
  decide

/-- Claim C10: `total_minutes` is never negative (clamped even for degenerate
break/end configurations), and `slot_count` guards against non-positive
durations, returning the floor of `total_minutes / slot_duration_minutes`
whenever the duration is positive — no division by zero for any slot. -/
theorem C10_slot_count_total (s : DoctorAvailability) :
    0 ≤ total_minutes s ∧
    (s.slot_duration_minutes ≤ 0 → slot_count s = 0) ∧
    (0 < s.slot_duration_minutes →
       slot_count s = total_minutes s / s.slot_duration_minutes) := by
  refine ⟨le_max_left 0 _, fun h => ?_, fun h => ?_⟩
  · simp [slot_count, h]
  · simp [slot_count, not_le.mpr h]

/-- Witness for C10 at the spec's own scenario: 09:00-17:00, break 12:00-13:00,
30-minute slots gives 420 total minutes and 14 slots; a slot with duration 0
yields slot_count 0. -/
theorem C10_slot_count_total_witness :
    total_minutes slotMonday = 420 ∧
    slot_count slotMonday = 14 ∧
    slot_count slotZeroDuration = 0 := by
  refine ⟨by decide, ?_, ?_⟩
  · have h := (C10_slot_count_total slotMonday).2.2 (by decide)
    rw [h]
    decide
  · exact (C10_slot_count_total slotZeroDuration).2.1 (by decide)

theorem confirm_not_ok_of_not_pending (db : DB) (now : Int)
    (appointment_id user_id : Nat) (a : Appointment)
    (hfind : get_appointment_by_id db appointment_id = some a)
    (hs : a.status ≠ .pending) (r : Appointment) :
    confirm_appointment db now appointment_id user_id ≠ .ok r := by
  intro hok
  unfold confirm_appointment at hok
  rw [hfind] at hok
  dsimp only at hok
  cases hd : findDoctorByUserId db user_id with
  | none => rw [hd] at hok; simp at hok
  | some doctor =>
    rw [hd] at hok
    dsimp only at hok
    by_cases h1 : a.doctor_id ≠ doctor.id
    · rw [if_pos h1] at hok; simp at hok
    · rw [if_neg h1, if_pos hs] at hok; simp at hok

theorem cancel_not_ok_of_cancelled_or_completed (db : DB) (now : Int)
    (appointment_id user_id : Nat) (a : Appointment)
    (hfind : get_appointment_by_id db appointment_id = some a)
    (hs : a.status = .cancelled ∨ a.status = .completed)
    (is_doctor : Bool) (r : Appointment) :
    cancel_appointment db now appointment_id user_id is_doctor ≠ .ok r := by
  intro hok
  unfold cancel_appointment at hok
  rw [hfind] at hok
  dsimp only at hok
  cases hauth : cancelAuth db a user_id is_doctor with
  | error e => rw [hauth] at hok; simp at hok
  | ok u =>
    rw [hauth] at hok
    dsimp only at hok
    rw [if_pos hs] at hok
    simp at hok

theorem cancel_by_patient_not_ok_of_noShow (db : DB) (now : Int)
    (appointment_id user_id : Nat) (a : Appointment)
    (hfind : get_appointment_by_id db appointment_id = some a)
    (hs : a.status = .noShow) (r : Appointment) :
    cancel_appointment db now appointment_id user_id false ≠ .ok r := by
  intro hok
  unfold cancel_appointment at hok
  rw [hfind] at hok
  dsimp only at hok
  have hcanc : is_cancellable now a = false := by
    simp [is_cancellable, hs]
  cases hauth : cancelAuth db a user_id false with
  | error e => rw [hauth] at hok; simp at hok
  | ok u =>
    rw [hauth] at hok
    dsimp only at hok
    rw [if_neg (by simp [hs]), if_pos ⟨by simp, hcanc⟩] at hok
    simp at hok

theorem reschedule_not_ok_of_terminal (db : DB) (now new_date : Int)
    (appointment_id patient_id : Nat) (a : Appointment)
    (hfind : get_appointment_by_id db appointment_id = some a)
    (hs : a.status = .cancelled ∨ a.status = .completed ∨ a.status = .noShow)
    (r : Appointment) :
    reschedule_appointment db now appointment_id patient_id new_date ≠ .ok r := by
  intro hok
  unfold reschedule_appointment at hok
  rw [hfind] at hok
  dsimp only at hok
  have hmod : is_modifiable now a = false := by
    rcases hs with h | h | h <;> simp [is_modifiable, is_cancellable, h]
  by_cases h1 : a.patient_id ≠ patient_id
  · rw [if_pos h1] at hok; simp at hok
  · rw [if_neg h1, if_pos hmod] at hok; simp at hok

theorem mark_completed_not_ok_of_not_confirmed (db : DB)
    (appointment_id user_id : Nat) (a : Appointment)
    (hfind : get_appointment_by_id db appointment_id = some a)
    (hs : a.status ≠ .confirmed) (r : Appointment) :
    mark_completed db appointment_id user_id ≠ .ok r := by
  intro hok
  unfold mark_completed at hok
  rw [hfind] at hok
  dsimp only at hok
  cases hd : findDoctorByUserId db user_id with
  | none => rw [hd] at hok; simp at hok
  | some doctor =>
    rw [hd] at hok
    dsimp only at hok
    by_cases h1 : a.doctor_id ≠ doctor.id
    · rw [if_pos h1] at hok; simp at hok
    · rw [if_neg h1, if_pos hs] at hok; simp at hok

theorem mark_no_show_not_ok_of_not_confirmed (db : DB)
    (appointment_id user_id : Nat) (a : Appointment)
    (hfind : get_appointment_by_id db appointment_id = some a)
    (hs : a.status ≠ .confirmed) (r : Appointment) :
    mark_no_show db appointment_id user_id ≠ .ok r := by
  intro hok
  unfold mark_no_show at hok
  rw [hfind] at hok
  dsimp only at hok
  cases hd : findDoctorByUserId db user_id with
  | none => rw [hd] at hok; simp at hok
  | some doctor =>
    rw [hd] at hok
    dsimp only at hok
    by_cases h1 : a.doctor_id ≠ doctor.id
    · rw [if_pos h1] at hok; simp at hok
    · rw [if_neg h1, if_pos hs] at hok; simp at hok

/-- Claim C4 (amended): for an appointment whose status is cancelled or
completed, none of confirm/cancel/reschedule/mark_completed/mark_no_show can
succeed, for any actor; for a no_show appointment, confirm, reschedule,
mark_completed, mark_no_show and a patient-side cancel all fail, but a
doctor-side cancel is NOT covered — `cancel_appointment` only guards the
statuses cancelled and completed, so a doctor can still cancel a no_show
appointment (see the counterexample). -/
theorem C4_terminal_statuses_frozen (db : DB) (now new_date : Int)
    (appointment_id user_id patient_id : Nat) (a : Appointment)
    (hfind : get_appointment_by_id db appointment_id = some a) :
    ((a.status = .cancelled ∨ a.status = .completed) →
       (∀ r, confirm_appointment db now appointment_id user_id ≠ .ok r) ∧
       (∀ is_doctor r,
          cancel_appointment db now appointment_id user_id is_doctor ≠ .ok r) ∧
       (∀ r, reschedule_appointment db now appointment_id patient_id new_date ≠
          .ok r) ∧
       (∀ r, mark_completed db appointment_id user_id ≠ .ok r) ∧
       (∀ r, mark_no_show db appointment_id user_id ≠ .ok r)) ∧
    (a.status = .noShow →
       (∀ r, confirm_appointment db now appointment_id user_id ≠ .ok r) ∧
       (∀ r, cancel_appointment db now appointment_id user_id false ≠ .ok r) ∧
       (∀ r, reschedule_appointment db now appointment_id patient_id new_date ≠
          .ok r) ∧
       (∀ r, mark_completed db appointment_id user_id ≠ .ok r) ∧
       (∀ r, mark_no_show db appointment_id user_id ≠ .ok r)) := by
  constructor
  · intro hs
    refine ⟨fun r => confirm_not_ok_of_not_pending db now appointment_id user_id
        a hfind ?_ r,
      fun is_doctor r => cancel_not_ok_of_cancelled_or_completed db now
        appointment_id user_id a hfind hs is_doctor r,
      fun r => reschedule_not_ok_of_terminal db now new_date appointment_id
        patient_id a hfind (by tauto) r,
      fun r => mark_completed_not_ok_of_not_confirmed db appointment_id user_id
        a hfind ?_ r,
      fun r => mark_no_show_not_ok_of_not_confirmed db appointment_id user_id
        a hfind ?_ r⟩ <;> rcases hs with h | h <;> simp [h]
  · intro hs
    exact ⟨fun r => confirm_not_ok_of_not_pending db now appointment_id user_id
        a hfind (by simp [hs]) r,
      fun r => cancel_by_patient_not_ok_of_noShow db now appointment_id user_id
        a hfind hs r,
      fun r => reschedule_not_ok_of_terminal db now new_date appointment_id
        patient_id a hfind (by tauto) r,
      fun r => mark_completed_not_ok_of_not_confirmed db appointment_id user_id
        a hfind (by simp [hs]) r,
      fun r => mark_no_show_not_ok_of_not_confirmed db appointment_id user_id
        a hfind (by simp [hs]) r⟩

/-- Counterexample to claim C4 as stated: a doctor-side
`cancel_appointment` applied to an appointment in the terminal status
no_show succeeds and changes the status to cancelled. -/
theorem C4_counterexample :
    apptNoShow.status = .noShow ∧
    cancel_appointment dbNoShow 0 5 10 true =
      .ok { apptNoShow with status := .cancelled } := by
  constructor
  · rfl
  · rfl

theorem C4_terminal_statuses_frozen_witness :
    cancel_appointment dbCancelled 0 5 10 true ≠
      .ok { apptNoShow with status := .cancelled } := by
  have h := (C4_terminal_statuses_frozen dbCancelled 0 2880 5 10 20
    { apptNoShow with status := .cancelled } (by rfl)).1 (Or.inl rfl)
  exact h.2.1 true _

/-- Claim C8 (amended): every generated confirmation code is "MC-" followed by
exactly 6 characters of the A-Z/0-9 alphabet, but `create_appointment` draws
the code exactly once: whenever the single generated code collides with an
existing appointment's code, the insert fails (unique-constraint conflict) —
there is no retry with a fresh draw. -/
theorem C8_confirmation_code_format_and_no_retry (g : Nat → Fin 36) :
    (∃ cs, (generate_confirmation_code g).toList = ['M', 'C', '-'] ++ cs ∧
       cs.length = 6 ∧ ∀ c ∈ cs, c ∈ codeAlphabet) ∧
    (∀ (db : DB) (patient_id doctor_id : Nat) (appointment_date : Int)
       (consultation_type : ConsultationType) (new_id : Nat),
       db.appointments.any
         (fun a => a.confirmation_code == generate_confirmation_code g) = true →
       ∀ r, create_appointment db g patient_id doctor_id appointment_date
         consultation_type new_id ≠ .ok r) := by
  constructor
  · refine ⟨(List.range 6).map
      (fun k => codeAlphabet.getD (g k) 'A'),
      ?_, by simp, ?_⟩
    · show ("MC-" ++ String.mk _).data = _
      rw [String.data_append]
    · intro c hc
      simp only [List.mem_map, List.mem_range] at hc
      obtain ⟨k, _, rfl⟩ := hc
      have hall : ∀ i : Fin 36, codeAlphabet.getD (i : Nat) 'A' ∈ codeAlphabet := by
        decide
      exact hall (g k)
  · intro db patient_id doctor_id appointment_date consultation_type new_id
      hany r hok
    unfold create_appointment at hok
    cases hd : db.doctors.find? (fun d => d.id == doctor_id) with
    | none => rw [hd] at hok; simp at hok
    | some doctor =>
      rw [hd] at hok
      dsimp only at hok
      by_cases h1 : doctor.is_accepting_patients = false
      · rw [if_pos h1] at hok; simp at hok
      · rw [if_neg h1] at hok
        by_cases h2 : consultation_type = .presentiel ∧
            doctor.offers_presentiel = false
        · rw [if_pos h2] at hok; simp at hok
        · rw [if_neg h2] at hok
          by_cases h3 : consultation_type = .online ∧
              doctor.offers_online = false
          · rw [if_pos h3] at hok; simp at hok
          · rw [if_neg h3] at hok
            by_cases h4 : check_slot_availability db.appointments doctor_id
                appointment_date none = false
            · rw [if_pos h4] at hok; simp at hok
            · rw [if_neg h4] at hok
              rw [if_pos hany] at hok
              simp at hok

/-- Counterexample to claim C8 as stated: with a free slot and a code
collision, `create_appointment` does not recover by retrying with the fresh
draws still available in the stream — it fails the booking with a conflict. -/
theorem C8_counterexample :
    generate_confirmation_code drawsThenFresh = "MC-AAAAAA" ∧
    create_appointment dbTakenCode drawsThenFresh 2 1 10000 .online 9 =
      .error .conflict := by
  constructor
  · rfl
  · rfl

/-- Witness for C8's collision hypothesis at the concrete store above. -/
theorem C8_confirmation_code_format_and_no_retry_witness :
    create_appointment dbTakenCode drawsThenFresh 2 1 10000 .online 9 ≠
      .ok apptHoldingCode :=
  (C8_confirmation_code_format_and_no_retry drawsThenFresh).2 dbTakenCode
    2 1 10000 .online 9 (by decide) apptHoldingCode

/-- Claim C9: the result of `check_conflicts` is independent of its
`exclude_absence_id` argument — for every store, doctor, date range and
optional time window, any two values of the parameter (including none)
produce identical `ConflictCheckResponse` values. -/
theorem C9_check_conflicts_ignores_exclude (db : DB) (doctor_id : Nat)
    (start_date end_date : Int) (start_time end_time : Option Nat)
    (e1 e2 : Option Nat) :
    check_conflicts db doctor_id start_date end_date start_time end_time e1 =
      check_conflicts db doctor_id start_date end_date start_time end_time e2 :=
  rfl

theorem slotsOverlap_iff (a b : DoctorAvailability) :
    slotsOverlap a b = true ↔
      b.start_time < a.end_time ∧ a.start_time < b.end_time := by
  simp only [slotsOverlap, Bool.not_eq_eq_eq_not, Bool.not_true,
    Bool.or_eq_false_iff, decide_eq_false_iff_not, not_le]

theorem slotsOverlap_comm (a b : DoctorAvailability) :
    slotsOverlap a b = slotsOverlap b a := by
  rw [Bool.eq_iff_iff, slotsOverlap_iff, slotsOverlap_iff]
  omega

theorem create_availability_slot_conflict_iff
    (slots : List DoctorAvailability) (doctor_id new_id : Nat)
    (data : AvailabilitySlotCreate) :
    create_availability_slot slots doctor_id new_id data = .error .conflict ↔
    (slots.filter (fun s =>
      s.doctor_id == doctor_id && s.day_of_week == data.day_of_week &&
      s.is_active)).any (fun slot =>
        !(decide (data.end_time ≤ slot.start_time) ||
          decide (data.start_time ≥ slot.end_time))) = true := by
  unfold create_availability_slot
  dsimp only
  split
  · next h => exact iff_of_true rfl h
  · next h => exact iff_of_false (by simp) h

/-- Claim C3 (amended): `create_availability_slot` rejects with 409 exactly
when the new [start, end) window overlaps an existing active slot of the same
doctor and day, and (given a fresh id) preserves the non-overlap invariant;
`update_availability_slot`, by contrast, performs no overlap check at all —
it can never return a conflict, so changing times through it can break the
invariant (see the counterexample). -/
theorem C3_create_checks_overlap_update_does_not
    (slots : List DoctorAvailability) (doctor_id new_id slot_id : Nat)
    (data : AvailabilitySlotCreate) (udata : AvailabilitySlotUpdate) :
    (create_availability_slot slots doctor_id new_id data = .error .conflict ↔
       ∃ s ∈ slots, s.doctor_id = doctor_id ∧
         s.day_of_week = data.day_of_week ∧ s.is_active = true ∧
         s.start_time < data.end_time ∧ data.start_time < s.end_time) ∧
    (∀ res, create_availability_slot slots doctor_id new_id data = .ok res →
       (∀ s ∈ slots, s.id ≠ new_id) → weeklyNonOverlapping slots →
       weeklyNonOverlapping res.1) ∧
    (update_availability_slot slots doctor_id slot_id udata ≠
       .error .conflict) := by
  refine ⟨?_, ?_, ?_⟩
  · rw [create_availability_slot_conflict_iff, List.any_eq_true]
    constructor
    · rintro ⟨s, hs, hp⟩
      rw [List.mem_filter] at hs
      obtain ⟨hmem, hq⟩ := hs
      simp only [Bool.and_eq_true, beq_iff_eq] at hq
      simp only [Bool.not_eq_eq_eq_not, Bool.not_true, Bool.or_eq_false_iff,
        decide_eq_false_iff_not, not_le] at hp
      exact ⟨s, hmem, hq.1.1, hq.1.2, hq.2, by omega, by omega⟩
    · rintro ⟨s, hmem, h1, h2, h3, h4, h5⟩
      refine ⟨s, List.mem_filter.mpr ⟨hmem, by simp [h1, h2, h3]⟩, ?_⟩
      simp only [Bool.not_eq_eq_eq_not, Bool.not_true, Bool.or_eq_false_iff,
        decide_eq_false_iff_not, not_le]
      omega
  · intro res hok hfresh hinv
    unfold create_availability_slot at hok
    dsimp only at hok
    by_cases hC : (slots.filter (fun s =>
        s.doctor_id == doctor_id && s.day_of_week == data.day_of_week &&
        s.is_active)).any (fun slot =>
          !(decide (data.end_time ≤ slot.start_time) ||
            decide (data.start_time ≥ slot.end_time))) = true
    · rw [if_pos hC] at hok
      simp at hok
    · rw [if_neg hC] at hok
      have hno : ∀ s ∈ slots, s.doctor_id = doctor_id →
          s.day_of_week = data.day_of_week → s.is_active = true →
          ¬ (s.start_time < data.end_time ∧ data.start_time < s.end_time) := by
        intro s hs h1 h2 h3 hov
        refine hC (List.any_eq_true.mpr
          ⟨s, List.mem_filter.mpr ⟨hs, by simp [h1, h2, h3]⟩, ?_⟩)
        simp only [Bool.not_eq_eq_eq_not, Bool.not_true, Bool.or_eq_false_iff,
          decide_eq_false_iff_not, not_le]
        omega
      obtain rfl := Except.ok.inj hok
      intro a ha b hb hid hdoc hday hacta hactb
      rcases List.mem_append.mp ha with ha1 | ha1 <;>
        rcases List.mem_append.mp hb with hb1 | hb1
      · exact hinv a ha1 b hb1 hid hdoc hday hacta hactb
      · have hbe := List.mem_singleton.mp hb1
        have hbs : b.start_time = data.start_time := by rw [hbe]
        have hbn : b.end_time = data.end_time := by rw [hbe]
        have hnov := hno a ha1 (by rw [hdoc, hbe]) (by rw [hday, hbe]) hacta
        rw [Bool.eq_false_iff]
        intro htrue
        rw [slotsOverlap_iff] at htrue
        omega
      · have hae := List.mem_singleton.mp ha1
        have has : a.start_time = data.start_time := by rw [hae]
        have han : a.end_time = data.end_time := by rw [hae]
        have hnov := hno b hb1 (by rw [← hdoc, hae]) (by rw [← hday, hae]) hactb
        rw [Bool.eq_false_iff]
        intro htrue
        rw [slotsOverlap_iff] at htrue
        omega
      · have hae := List.mem_singleton.mp ha1
        have hbe := List.mem_singleton.mp hb1
        rw [hae, hbe] at hid
        exact absurd rfl hid
  · intro h
    unfold update_availability_slot at h
    cases hf : slots.find? (fun s => s.id == slot_id && s.doctor_id == doctor_id) with
    | none =>
      rw [hf] at h
      exact HError.noConfusion (Except.error.inj h)
    | some slot =>
      rw [hf] at h
      exact Except.noConfusion h

/-- Counterexample to claim C3 as stated: starting from a store satisfying the
no-overlap invariant, `update_availability_slot` moves slot 2 onto slot 1's
window without any overlap check — it succeeds and the invariant is broken. -/
theorem C3_counterexample :
    weeklyNonOverlapping [wslotA, wslotB] ∧
    update_availability_slot [wslotA, wslotB] 1 2 overlapUpdate =
      .ok ([wslotA, wslotBMoved], wslotBMoved) ∧
    wslotA.doctor_id = wslotBMoved.doctor_id ∧
    wslotA.day_of_week = wslotBMoved.day_of_week ∧
    wslotA.is_active = true ∧ wslotBMoved.is_active = true ∧
    slotsOverlap wslotA wslotBMoved = true ∧
    ¬ weeklyNonOverlapping [wslotA, wslotBMoved] := by
  refine ⟨?_, rfl, rfl, rfl, rfl, rfl, rfl, ?_⟩
  · simp only [weeklyNonOverlapping]
    decide
  · simp only [weeklyNonOverlapping]
    decide

/-- Witness for C3 at the concrete store `[wslotA]`: an overlapping create is
rejected with a conflict, while an update is never rejected with one. -/
theorem C3_create_checks_overlap_update_does_not_witness :
    create_availability_slot [wslotA] 1 3 overlapCreate = .error .conflict ∧
    update_availability_slot [wslotA] 1 1 overlapUpdate ≠ .error .conflict := by
  have h := C3_create_checks_overlap_update_does_not [wslotA] 1 3 1
    overlapCreate overlapUpdate
  exact ⟨h.1.mpr ⟨wslotA, by decide⟩, h.2.2⟩

theorem computeDay_date (weekly : Nat → List DoctorAvailability)
    (absences : List DoctorAbsence) (exceptions : List AvailabilityException)
    (appointments : List Appointment) (d : Int) :
    (computeDay weekly absences exceptions appointments d).date = d := rfl

theorem computeDay_is_blocked (weekly : Nat → List DoctorAvailability)
    (absences : List DoctorAbsence) (exceptions : List AvailabilityException)
    (appointments : List Appointment) (d : Int) :
    (computeDay weekly absences exceptions appointments d).is_blocked =
      (dayBlocking absences exceptions d).1 := rfl

theorem computeDay_block_reason (weekly : Nat → List DoctorAvailability)
    (absences : List DoctorAbsence) (exceptions : List AvailabilityException)
    (appointments : List Appointment) (d : Int) :
    (computeDay weekly absences exceptions appointments d).block_reason =
      (dayBlocking absences exceptions d).2 := rfl

theorem computeDay_mem_computeDays (fuel : Nat) (end_date d : Int)
    (weekly : Nat → List DoctorAvailability) (absences : List DoctorAbsence)
    (exceptions : List AvailabilityException)
    (appointments : List Appointment) :
    ∀ current_date, fuel = (end_date + 1 - current_date).toNat →
      current_date ≤ d → d ≤ end_date →
      computeDay weekly absences exceptions appointments d ∈
        computeDays fuel current_date end_date weekly absences exceptions
          appointments := by
  induction fuel with
  | zero =>
    intro c hf hc hd
    exfalso
    omega
  | succ n ih =>
    intro c hf hc hd
    simp only [computeDays]
    rw [if_pos (by omega : c ≤ end_date)]
    by_cases hdc : d = c
    · subst hdc
      exact List.mem_cons_self _ _
    · exact List.mem_cons_of_mem _ (ih (c + 1) (by omega) (by omega) hd)

theorem computeDays_dates (fuel : Nat) (end_date : Int)
    (weekly : Nat → List DoctorAvailability) (absences : List DoctorAbsence)
    (exceptions : List AvailabilityException)
    (appointments : List Appointment) :
    ∀ current_date, fuel = (end_date + 1 - current_date).toNat →
      (computeDays fuel current_date end_date weekly absences exceptions
        appointments).map (fun day => day.date) =
      (List.range fuel).map (fun (i : Nat) => current_date + (i : Int)) := by
  induction fuel with
  | zero => intro c _; rfl
  | succ n ih =>
    intro c hf
    simp only [computeDays]
    rw [if_pos (by omega : c ≤ end_date), List.map_cons,
      List.range_succ_eq_map, List.map_cons, List.map_map]
    refine congrArg₂ _ (by simp [computeDay_date]) ?_
    rw [ih (c + 1) (by omega)]
    refine List.map_congr_left ?_
    intro i _
    show (c + 1) + (i : Int) = c + ((i + 1 : Nat) : Int)
    push_cast
    ring

theorem genSubSlots_avail (fuel : Nat) (endT dur : Int)
    (bs be : Option Nat) (appointments : List Appointment) :
    ∀ cur, ∀ s ∈ genSubSlots fuel cur endT dur bs be appointments,
      s.is_available = !s.is_booked := by
  induction fuel with
  | zero => intro cur s hs; simp [genSubSlots] at hs
  | succ n ih =>
    intro cur s hs
    simp only [genSubSlots] at hs
    split at hs
    · split at hs
      · exact ih _ s hs
      · rcases List.mem_cons.mp hs with rfl | hs2
        · dsimp only
          cases appointments.find? _ <;> rfl
        · exact ih _ s hs2
    · simp at hs

theorem computeDay_slots_avail (weekly : Nat → List DoctorAvailability)
    (absences : List DoctorAbsence) (exceptions : List AvailabilityException)
    (appointments : List Appointment) (d : Int) :
    ∀ s ∈ (computeDay weekly absences exceptions appointments d).slots,
      s.is_available = !s.is_booked := by
  intro s hs
  unfold computeDay at hs
  dsimp only at hs
  split at hs
  · rw [List.mem_flatMap] at hs
    obtain ⟨si, _, hmem⟩ := hs
    exact genSubSlots_avail _ _ _ _ _ _ _ s hmem
  · simp at hs

theorem computeDays_avail (fuel : Nat) (end_date : Int)
    (weekly : Nat → List DoctorAvailability) (absences : List DoctorAbsence)
    (exceptions : List AvailabilityException)
    (appointments : List Appointment) :
    ∀ current_date,
      ∀ day ∈ computeDays fuel current_date end_date weekly absences
        exceptions appointments,
      ∀ s ∈ day.slots, s.is_available = !s.is_booked := by
  induction fuel with
  | zero => intro c day hday; simp [computeDays] at hday
  | succ n ih =>
    intro c day hday
    simp only [computeDays] at hday
    split at hday
    · rcases List.mem_cons.mp hday with rfl | h
      · exact computeDay_slots_avail _ _ _ _ _
      · exact ih _ day h
    · simp at hday

/-- Claim C2 (amended): every calendar day in [start_date, end_date] is
computed — the day list's dates are exactly start_date, start_date + 1, ...,
end_date, past days included — but the `is_available` of every generated
sub-slot is exactly the negation of `is_booked`: `get_computed_availability`
never consults an evaluation instant, so sub-slots whose start time has
already passed are NOT forced to `is_available = false` (see the
counterexample). -/
theorem C2_days_computed_available_iff_unbooked (st : AvailState)
    (doctor_id : Nat) (start_date end_date : Int) :
    ((get_computed_availability st doctor_id start_date end_date).map
        (fun day => day.date) =
      (List.range ((end_date + 1 - start_date).toNat)).map
        (fun (i : Nat) => start_date + (i : Int))) ∧
    (∀ day ∈ get_computed_availability st doctor_id start_date end_date,
       ∀ s ∈ day.slots, s.is_available = !s.is_booked) := by
  constructor
  · exact computeDays_dates _ _ _ _ _ _ start_date rfl
  · exact fun day hday => computeDays_avail _ _ _ _ _ _ start_date day hday

/-- Counterexample to claim C2 as stated: on a long-past Monday, an unbooked
sub-slot whose start instant lies before the evaluation instant still has
`is_available = true`. -/
theorem C2_counterexample :
    ∃ day ∈ get_computed_availability availStPast 1 0 0,
      ∃ s ∈ day.slots,
        day.date * 1440 + (s.start_time : Int) < evalNow ∧
        s.is_available = true := by
  decide

/-- Witness for C2 at the concrete store: the single requested day is
computed even though it is entirely in the past. -/
theorem C2_days_computed_available_iff_unbooked_witness :
    (get_computed_availability availStPast 1 0 3).map (fun day => day.date) =
      [0, 1, 2, 3] := by
  rw [(C2_days_computed_available_iff_unbooked availStPast 1 0 3).1]
  decide

/-- Claim C5 (amended): when a full-day active absence covers the date AND
the exception retained for that date is a full-day blocking one, the computed
day is blocked, but its `block_reason` is the EXCEPTION's reason (or
"Blocked" as its fallback) — the exception check runs second and overwrites
the absence's reason, so the exception wins, not the absence. -/
theorem C5_exception_block_reason_wins (st : AvailState) (doctor_id : Nat)
    (start_date end_date d : Int) (h1 : start_date ≤ d) (h2 : d ≤ end_date)
    (ab : DoctorAbsence)
    (hab : ab ∈ fetchAbsences st.absences doctor_id start_date end_date)
    (habc : ab.start_date ≤ d ∧ d ≤ ab.end_date ∧ ab.is_full_day = true)
    (e : AvailabilityException)
    (he : lastExceptionFor
      (fetchExceptions st.exceptions doctor_id start_date end_date) d = some e)
    (heb : e.is_available = false ∧ e.is_full_day = true) :
    ∃ day ∈ get_computed_availability st doctor_id start_date end_date,
      day.date = d ∧ day.is_blocked = true ∧
      day.block_reason = some (pyOr e.reason "Blocked") := by
  refine ⟨computeDay (get_weekly_schedule st.weekly_slots doctor_id)
      (fetchAbsences st.absences doctor_id start_date end_date)
      (fetchExceptions st.exceptions doctor_id start_date end_date)
      (fetchAppointments st.appointments doctor_id start_date end_date) d,
    computeDay_mem_computeDays _ _ _ _ _ _ _ start_date rfl h1 h2,
    rfl, ?_, ?_⟩
  · rw [computeDay_is_blocked]
    unfold dayBlocking
    rw [he]
    dsimp only
    rw [if_pos (by simp [heb.1, heb.2])]
  · rw [computeDay_block_reason]
    unfold dayBlocking
    rw [he]
    dsimp only
    rw [if_pos (by simp [heb.1, heb.2])]

/-- Counterexample to claim C5 as stated: with a full-day absence and a
full-day blocking exception on the same date, the day's `block_reason` is the
exception's reason, not the absence's title. -/
theorem C5_counterexample :
    (∃ day ∈ get_computed_availability availStBoth 1 5 5,
       day.is_blocked = true ∧ day.block_reason = some "Travaux") ∧
    pyOr absVac.title absVac.absence_type.value = "Vacances" ∧
    "Travaux" ≠ "Vacances" := by
  decide

/-- Witness for C5 at the concrete store `availStBoth`. -/
theorem C5_exception_block_reason_wins_witness :
    ∃ day ∈ get_computed_availability availStBoth 1 5 5,
      day.date = 5 ∧ day.is_blocked = true ∧
      day.block_reason = some (pyOr excRenov.reason "Blocked") :=
  C5_exception_block_reason_wins availStBoth 1 5 5 5 (by decide) (by decide)
    absVac (by decide) ⟨by decide, by decide, by decide⟩
    excRenov (by decide) ⟨by decide, by decide⟩

/-- Claim C6 (amended): the compositor consults only the single exception the
per-date dictionary retained — the LAST one fetched for that date.  With no
full-day absence covering the date, the day is blocked iff that last
exception is full-day blocking; any other exception sharing the date, even a
full-day blocking one, is ignored (see the counterexample). -/
theorem C6_only_last_exception_consulted (st : AvailState) (doctor_id : Nat)
    (start_date end_date d : Int) (h1 : start_date ≤ d) (h2 : d ≤ end_date)
    (hnoabs : absenceBlock
      (fetchAbsences st.absences doctor_id start_date end_date) d = none) :
    ∃ day ∈ get_computed_availability st doctor_id start_date end_date,
      day.date = d ∧
      (day.is_blocked = true ↔
        ∃ e, lastExceptionFor
            (fetchExceptions st.exceptions doctor_id start_date end_date) d =
            some e ∧ e.is_available = false ∧ e.is_full_day = true) := by
  refine ⟨computeDay (get_weekly_schedule st.weekly_slots doctor_id)
      (fetchAbsences st.absences doctor_id start_date end_date)
      (fetchExceptions st.exceptions doctor_id start_date end_date)
      (fetchAppointments st.appointments doctor_id start_date end_date) d,
    computeDay_mem_computeDays _ _ _ _ _ _ _ start_date rfl h1 h2,
    rfl, ?_⟩
  rw [computeDay_is_blocked]
  unfold dayBlocking
  rw [hnoabs]
  dsimp only
  cases hexc : lastExceptionFor
      (fetchExceptions st.exceptions doctor_id start_date end_date) d with
  | none =>
    dsimp only
    constructor
    · intro hfalse
      exact absurd hfalse (by simp)
    · rintro ⟨e, he, _, _⟩
      exact Option.noConfusion he
  | some e =>
    dsimp only
    by_cases hcond : (!e.is_available && e.is_full_day) = true
    · rw [if_pos hcond]
      simp only [Bool.and_eq_true, Bool.not_eq_true'] at hcond
      exact iff_of_true rfl ⟨e, rfl, hcond.1, hcond.2⟩
    · rw [if_neg hcond]
      constructor
      · intro hfalse
        exact absurd hfalse (by simp)
      · rintro ⟨e', he', hav, hfd⟩
        obtain rfl := Option.some.inj he'
        exact absurd (by simp [hav, hfd]) hcond

/-- Counterexample to claim C6 as stated: a full-day blocking exception
exists for day 7, yet the day is not blocked, because only the last-fetched
exception of the date (a non-blocking one) is consulted. -/
theorem C6_counterexample :
    excBlockFull ∈ availStTwoExc.exceptions ∧
    excBlockFull.exception_date = 7 ∧
    excBlockFull.is_available = false ∧
    excBlockFull.is_full_day = true ∧
    ∀ day ∈ get_computed_availability availStTwoExc 1 7 7,
      day.is_blocked = false := by
  decide

/-- Witness for C6 at the concrete store `availStTwoExc`. -/
theorem C6_only_last_exception_consulted_witness :
    ∃ day ∈ get_computed_availability availStTwoExc 1 7 7,
      day.date = 7 ∧
      (day.is_blocked = true ↔
        ∃ e, lastExceptionFor
            (fetchExceptions availStTwoExc.exceptions 1 7 7) 7 =
            some e ∧ e.is_available = false ∧ e.is_full_day = true) :=
  C6_only_last_exception_consulted availStTwoExc 1 7 7 7 (by decide)
    (by decide) (by decide)

end MediConnect
